import Mathlib

/-!
Verification development for the Streamlit dashboard controller in
`src/streamlit_app.py`.  Python strings are embedded as `List Char`;
Python's substring operator `in` becomes infix containment on char
lists, `str.strip()` becomes `pyStrip`, and `str.lower()` becomes
`pyLower`.  Dictionary-shaped collaborator results become structures
with `Option` fields; a missing key is `none`.
-/

namespace StreamlitApp

/-- Python whitespace characters recognised by `str.strip()`. -/
def isPySpace (c : Char) : Bool :=
  c = ' ' || c = '\t' || c = '\n' || c = '\r' || c = '\x0b' || c = '\x0c'

/-- Embedding of Python `str.strip()`: drop whitespace on both ends. -/
def pyStrip (s : List Char) : List Char :=
  ((s.dropWhile isPySpace).reverse.dropWhile isPySpace).reverse

/-- Embedding of Python `needle in hay` substring containment. -/
def strContains (hay needle : List Char) : Bool :=
  decide (needle <:+: hay)

/-- Embedding of Python `str.lower()` (the keys involved are ASCII). -/
def pyLower (s : List Char) : List Char :=
  s.map Char.toLower

/-- Advice classes realised by the three rendering branches at
`src/streamlit_app.py:166-171`: `st.success` / `st.error` / `st.warning`. -/
inductive AdviceClass
  | buy
  | sell
  | neutral
  deriving DecidableEq

/-- The buy-signal token checked at `src/streamlit_app.py:166`. -/
def buyToken : List Char := "买入".data

/-- The sell-signal token checked at `src/streamlit_app.py:168`. -/
def sellToken : List Char := "卖出".data

/-- Advice classification, `src/streamlit_app.py:166-171`:
`if "买入" in advice: st.success(...) elif "卖出" in advice: st.error(...)
else: st.warning(...)`. -/
def classifyAdvice (advice : List Char) : AdviceClass :=
  if strContains advice buyToken then .buy
  else if strContains advice sellToken then .sell
  else .neutral

/-- Claim C4: for every advice text, classification returns `buy` exactly when
the text contains the buy token (so a text containing both tokens is `buy`:
the buy check precedes the sell check), `sell` exactly when it lacks the buy
token and contains the sell token, and `neutral` exactly when it contains
neither token. -/
theorem classifyAdvice_cases (advice : List Char) :
    (classifyAdvice advice = .buy ↔ strContains advice buyToken = true) ∧
    (classifyAdvice advice = .sell ↔
      strContains advice buyToken = false ∧ strContains advice sellToken = true) ∧
    (classifyAdvice advice = .neutral ↔
      strContains advice buyToken = false ∧ strContains advice sellToken = false) := by
  unfold classifyAdvice
  cases hb : strContains advice buyToken <;>
    cases hs : strContains advice sellToken <;> simp

example : classifyAdvice ("建议买入并卖出".data) = .buy := by decide

example : classifyAdvice ("建议卖出".data) = .sell := by decide

example : classifyAdvice ("持有观望".data) = .neutral := by decide

/-- The sensitivity token `"api_key"` checked at `src/streamlit_app.py:415`. -/
def sensApiKey : List Char := "api_key".data

/-- The sensitivity token `"token"` checked at `src/streamlit_app.py:415`. -/
def sensToken : List Char := "token".data

/-- The sensitivity token `"password"` checked at `src/streamlit_app.py:415`. -/
def sensPassword : List Char := "password".data

/-- The sensitivity predicate of `src/streamlit_app.py:415`:
`"api_key" in key.lower() or "token" in key.lower() or "password" in key.lower()`. -/
def sensitiveKey (key : List Char) : Bool :=
  strContains (pyLower key) sensApiKey ||
  strContains (pyLower key) sensToken ||
  strContains (pyLower key) sensPassword

/-- The fixed mask shown for short, empty or null secrets (`"***"`). -/
def maskedValue : List Char := "***".data

/-- The ellipsis marker appended to a truncated secret (`"..."`). -/
def ellipsisMark : List Char := "...".data

/-- Secret masking, `src/streamlit_app.py:416`:
`f"{value[:8]}..." if value and len(value) > 8 else "***"`.
A null value is `none`; Python truthiness of a string is non-emptiness. -/
def maskSecret (value : Option (List Char)) : List Char :=
  match value with
  | none => maskedValue
  | some v => if v ≠ [] ∧ 8 < v.length then v.take 8 ++ ellipsisMark else maskedValue

/-- The displayed value of one config entry, `src/streamlit_app.py:414-418`:
sensitive keys are masked, all other keys show the raw value. -/
def displayValue (key : List Char) (value : Option (List Char)) : Option (List Char) :=
  if sensitiveKey key then some (maskSecret value) else value

/-- Claim C5: masking a null value gives `***`; a value longer than eight
characters (hence non-empty) gives its first eight characters followed by the
ellipsis marker; any value of length at most eight (including the empty one)
gives `***`; `displayValue` masks exactly the keys matching the sensitivity
predicate and passes every other key's value through unmasked. -/
theorem maskSecret_spec (key v : List Char) (value : Option (List Char)) :
    maskSecret none = maskedValue ∧
    (8 < v.length → maskSecret (some v) = v.take 8 ++ ellipsisMark) ∧
    (v.length ≤ 8 → maskSecret (some v) = maskedValue) ∧
    (sensitiveKey key = true → displayValue key value = some (maskSecret value)) ∧
    (sensitiveKey key = false → displayValue key value = value) := by
  refine ⟨rfl, ?_, ?_, ?_, ?_⟩
  · intro h
    have hne : v ≠ [] := by
      intro he
      subst he
      simp at h
    simp [maskSecret, hne, h]
  · intro h
    have hc : ¬(v ≠ [] ∧ 8 < v.length) := by
      rintro ⟨-, h8⟩
      omega
    simp only [maskSecret, if_neg hc]
  · intro h
    simp [displayValue, h]
  · intro h
    simp [displayValue, h]

/-- Sample secret from the spec's test properties. -/
def sampleSecret : List Char := "sk-1234567890".data

/-- Witness for C5 at concrete inputs: a 13-character secret is truncated to
its 8-character prefix plus the ellipsis, the empty value is fully masked, a
sensitive key (`gemini_api_key`) is masked and a non-sensitive key
(`stock_list`) is shown unmasked. -/
theorem maskSecret_spec_witness :
    maskSecret (some sampleSecret) = sampleSecret.take 8 ++ ellipsisMark ∧
    maskSecret (some []) = maskedValue ∧
    displayValue ("gemini_api_key".data) (some sampleSecret) =
      some (maskSecret (some sampleSecret)) ∧
    displayValue ("stock_list".data) (some sampleSecret) = some sampleSecret :=
  ⟨(maskSecret_spec [] sampleSecret none).2.1 (by decide),
   (maskSecret_spec [] [] none).2.2.1 (by decide),
   (maskSecret_spec ("gemini_api_key".data) [] (some sampleSecret)).2.2.2.1 (by decide),
   (maskSecret_spec ("stock_list".data) [] (some sampleSecret)).2.2.2.2 (by decide)⟩

/-- Report type selector values, `src/streamlit_app.py:119-121`. -/
inductive ReportType
  | detailed
  | simple
  deriving DecidableEq

/-- The argument record of the `analyze_stock` call, `src/streamlit_app.py:140-146`. -/
structure AnalysisRequest where
  stockCode : List Char
  reportType : ReportType
  forceRefresh : Bool
  queryId : Nat
  sendNotification : Bool
  deriving DecidableEq

/-- Outcome of the input-validation phase of a submit button: either the view
renders a visible input error and returns without touching any collaborator,
or it invokes the single collaborator operation with the given request. -/
inductive SubmitResult (α : Type)
  | inputError (msg : List Char)
  | calls (req : α)
  deriving DecidableEq

/-- The input-error message rendered at `src/streamlit_app.py:134` and `:283`. -/
def emptyCodeMsg : List Char := "请输入股票代码".data

/-- Analysis submission, `src/streamlit_app.py:132-146`: the guard is Python
truthiness (`if not stock_code`), i.e. only the empty raw string fails; the
collaborator is then called with `stock_code.strip()`. -/
def analysisSubmit (rawCode : List Char) (rt : ReportType) (forceRefresh : Bool)
    (queryId : Nat) (sendNotification : Bool) : SubmitResult AnalysisRequest :=
  if rawCode = [] then .inputError emptyCodeMsg
  else .calls ⟨pyStrip rawCode, rt, forceRefresh, queryId, sendNotification⟩

/-- Quote submission, `src/streamlit_app.py:280-287`: same truthiness guard,
then `get_realtime_quote(stock_code.strip())`. -/
def quoteSubmit (rawCode : List Char) : SubmitResult (List Char) :=
  if rawCode = [] then .inputError emptyCodeMsg
  else .calls (pyStrip rawCode)

/-- Counterexample to C1 as stated: the single-space input trims to empty, yet
both views pass validation and invoke their collaborator (with an empty
trimmed stock code) instead of failing with a validation error. -/
theorem whitespace_code_reaches_collaborator :
    pyStrip ([' ']) = [] ∧
    analysisSubmit ([' ']) .detailed false 0 true =
      .calls ⟨[], .detailed, false, 0, true⟩ ∧
    quoteSubmit ([' ']) = .calls [] := by decide

/-- Claim C1 amended: validation fails (visible error, no collaborator call)
exactly when the raw stock-code input is the empty string; for every non-empty
input — including whitespace-only input — the collaborator is invoked with the
trimmed stock code (which may itself be empty). -/
theorem submit_validation (raw : List Char) (rt : ReportType) (fr : Bool)
    (qid : Nat) (nt : Bool) :
    (raw = [] →
      analysisSubmit raw rt fr qid nt = .inputError emptyCodeMsg ∧
      quoteSubmit raw = .inputError emptyCodeMsg) ∧
    (raw ≠ [] →
      analysisSubmit raw rt fr qid nt = .calls ⟨pyStrip raw, rt, fr, qid, nt⟩ ∧
      quoteSubmit raw = .calls (pyStrip raw)) := by
  constructor <;> intro h <;> simp [analysisSubmit, quoteSubmit, h]

/-- Witness for the amended C1 at concrete inputs: the empty input fails with
the visible error, and a padded non-empty input reaches the collaborator with
its trimmed code. -/
theorem submit_validation_witness :
    analysisSubmit [] .detailed false 0 true = .inputError emptyCodeMsg ∧
    quoteSubmit (" 600519 ".data) = .calls (pyStrip (" 600519 ".data)) :=
  ⟨((submit_validation [] .detailed false 0 true).1 rfl).1,
   ((submit_validation (" 600519 ".data) .detailed false 0 true).2 (by decide)).2⟩

/-- The argument record of the `get_history_list` call, `src/streamlit_app.py:222-227`. -/
structure HistoryQuery where
  stockCodeFilter : Option (List Char)
  startDate : Int
  page : Nat
  limit : Nat
  deriving DecidableEq

/-- History query construction, `src/streamlit_app.py:213-227`:
`stock_code=stock_code_filter.strip() if stock_code_filter else None` (Python
truthiness: the raw filter is tested, not its trimmed form),
`start_date = now - days_back`, `page=1`, `limit=page_size`.  Dates are
embedded as integers (days); only the difference structure matters here. -/
def buildHistoryQuery (rawFilter : List Char) (now daysBack : Int) (pageSize : Nat) :
    HistoryQuery :=
  { stockCodeFilter := if rawFilter = [] then none else some (pyStrip rawFilter)
    startDate := now - daysBack
    page := 1
    limit := pageSize }

/-- Counterexample to C8 as stated: the single-space filter input trims to
empty, yet the query's filter is `some ""` (the empty string), not null. -/
theorem historyFilter_whitespace_counterexample :
    pyStrip ([' ']) = [] ∧
    (buildHistoryQuery ([' ']) 0 30 20).stockCodeFilter = some [] ∧
    (buildHistoryQuery ([' ']) 0 30 20).stockCodeFilter ≠ none := by decide

/-- Claim C8 amended: the query's `stockCodeFilter` is null exactly when the
raw (untrimmed) input is the empty string; for every non-empty raw input —
including whitespace-only input — it is the trimmed string (possibly empty);
the query's `page` is fixed at 1, and `startDate` is `now − daysBack`. -/
theorem buildHistoryQuery_spec (raw : List Char) (now daysBack : Int) (ps : Nat) :
    ((buildHistoryQuery raw now daysBack ps).stockCodeFilter = none ↔ raw = []) ∧
    (raw ≠ [] →
      (buildHistoryQuery raw now daysBack ps).stockCodeFilter = some (pyStrip raw)) ∧
    (buildHistoryQuery raw now daysBack ps).page = 1 ∧
    (buildHistoryQuery raw now daysBack ps).startDate = now - daysBack := by
  by_cases h : raw = [] <;> simp [buildHistoryQuery, h]

/-- Witness for the amended C8 at a concrete non-empty input. -/
theorem buildHistoryQuery_spec_witness :
    (buildHistoryQuery ("600519".data) 100 30 20).stockCodeFilter =
      some (pyStrip ("600519".data)) :=
  (buildHistoryQuery_spec ("600519".data) 100 30 20).2.1 (by decide)

/-- The fields of an analysis result actually read before the truthiness test
at `src/streamlit_app.py:148` (`result.get("stock_name")` etc.); a null/empty
result is embedded as `none`. -/
structure AnalysisResult where
  stockName : Option (List Char)
  stockCode : Option (List Char)
  deriving DecidableEq

/-- One history record, `src/streamlit_app.py:234-260`. -/
structure HistoryItem where
  report : Option (List Char)
  deriving DecidableEq

/-- A history page, `src/streamlit_app.py:229-230`: a dict with `total` and
`items`; a null result (or one without items) is embedded as `none`. -/
structure HistoryPage where
  total : Nat
  items : List HistoryItem
  deriving DecidableEq

/-- A realtime quote, `src/streamlit_app.py:287-315`: every field is read with
`dict.get`, so every field is optional.  Numeric payloads are embedded as
integers — only presence/absence and the default constants matter to the
rendering logic.  The Python key `open` is embedded as `openPrice` (`open` is
a Lean keyword). -/
structure Quote where
  currentPrice : Option Int
  change : Option Int
  changePercent : Option Int
  openPrice : Option Int
  prevClose : Option Int
  high : Option Int
  low : Option Int
  volume : Option Int
  amount : Option Int
  turnoverRate : Option Int
  deriving DecidableEq

/-- One task dict from `task_queue.list_tasks`, `src/streamlit_app.py:348-378`:
all fields are read with `dict.get`, so all are optional. -/
structure Task where
  stockCode : Option (List Char)
  createdAt : Option (List Char)
  status : Option (List Char)
  deriving DecidableEq

/-- The `config` mapping returned by `get_config`, `src/streamlit_app.py:394-397`:
key/value pairs; a value may itself be null. -/
abbrev ConfigDict : Type := List (List Char × Option (List Char))

/-- Outcome of the single collaborator call of a view: either the call raised
an exception carrying a message (`str(e)`), or it returned a value. -/
inductive Outcome (α : Type)
  | raised (msg : List Char)
  | returned (v : α)
  deriving DecidableEq

/-- The Streamlit status marker a view ends a render cycle in: `st.success`,
`st.error`, `st.info` or `st.warning`, with the rendered message. -/
inductive RenderState
  | success
  | errorMsg (msg : List Char)
  | infoMsg (msg : List Char)
  | warnMsg (msg : List Char)
  deriving DecidableEq

/-- Whether a render state is the error marker (`st.error`). -/
def isErrorState : RenderState → Bool
  | .errorMsg _ => true
  | _ => false

/-- Whether a render state is the informational marker (`st.info`). -/
def isInfoState : RenderState → Bool
  | .infoMsg _ => true
  | _ => false

/-- Analysis view result classification, `src/streamlit_app.py:137-199`:
a raised exception renders `st.error(f"分析过程中发生错误: {e}")`; a falsy
result renders `st.error("分析失败，...")`; otherwise the success path. -/
def analysisRender : Outcome (Option AnalysisResult) → RenderState
  | .raised msg => .errorMsg (("分析过程中发生错误: ".data) ++ msg)
  | .returned none => .errorMsg ("分析失败，请检查股票代码是否正确或查看日志".data)
  | .returned (some _) => .success

/-- History view result classification, `src/streamlit_app.py:220-266`:
a raised exception renders `st.error(f"查询失败: {e}")`; a falsy result or an
empty `items` list renders `st.info("暂无历史记录")`; otherwise success. -/
def historyRender : Outcome (Option HistoryPage) → RenderState
  | .raised msg => .errorMsg (("查询失败: ".data) ++ msg)
  | .returned none => .infoMsg ("暂无历史记录".data)
  | .returned (some p) =>
      if p.items = [] then .infoMsg ("暂无历史记录".data) else .success

/-- Quote view result classification, `src/streamlit_app.py:285-335`:
a raised exception renders `st.error(f"查询失败: {e}")`; a falsy quote renders
`st.error("获取行情数据失败")`; otherwise success. -/
def quoteRender : Outcome (Option Quote) → RenderState
  | .raised msg => .errorMsg (("查询失败: ".data) ++ msg)
  | .returned none => .errorMsg ("获取行情数据失败".data)
  | .returned (some _) => .success

/-- Task-monitor view result classification, `src/streamlit_app.py:346-384`:
a raised exception renders `st.error(f"获取任务列表失败: {e}")`; an empty task
list renders `st.info("当前没有任务")`; otherwise success. -/
def taskMonitorRender : Outcome (List Task) → RenderState
  | .raised msg => .errorMsg (("获取任务列表失败: ".data) ++ msg)
  | .returned [] => .infoMsg ("当前没有任务".data)
  | .returned (_ :: _) => .success

/-- Config view result classification, `src/streamlit_app.py:392-427`:
a raised exception renders `st.error(f"加载配置失败: {e}")`; a falsy result
(or one without a `config` key) renders `st.warning("无法加载配置信息")`;
otherwise the config sections are rendered. -/
def configRender : Outcome (Option ConfigDict) → RenderState
  | .raised msg => .errorMsg (("加载配置失败: ".data) ++ msg)
  | .returned none => .warnMsg ("无法加载配置信息".data)
  | .returned (some _) => .success

/-- Counterexample to C2 as stated: on a successful call returning a null
result, the Analysis view and the Quote view render `st.error` — the very
marker used for failures — not an informational "no data" state. -/
theorem empty_result_error_counterexample :
    analysisRender (.returned none) =
      .errorMsg ("分析失败，请检查股票代码是否正确或查看日志".data) ∧
    isErrorState (analysisRender (.returned none)) = true ∧
    quoteRender (.returned none) = .errorMsg ("获取行情数据失败".data) ∧
    isErrorState (quoteRender (.returned none)) = true :=
  ⟨rfl, rfl, rfl, rfl⟩

/-- Claim C2 amended: on a successful call with an empty/null result, the
History and TaskMonitor views render the informational marker (`st.info`) and
the Config view renders the warning marker (`st.warning`) — all distinct from
the error marker — but the Analysis and Quote views render the error marker
itself, identical in kind to their failure states. -/
theorem empty_result_states (p : HistoryPage) (h : p.items = []) (msg : List Char) :
    historyRender (.returned none) = .infoMsg ("暂无历史记录".data) ∧
    historyRender (.returned (some p)) = .infoMsg ("暂无历史记录".data) ∧
    taskMonitorRender (.returned []) = .infoMsg ("当前没有任务".data) ∧
    configRender (.returned none) = .warnMsg ("无法加载配置信息".data) ∧
    isErrorState (analysisRender (.returned none)) = true ∧
    isErrorState (quoteRender (.returned none)) = true ∧
    isErrorState (.infoMsg msg) = false ∧
    isErrorState (.warnMsg msg) = false := by
  refine ⟨rfl, ?_, rfl, rfl, rfl, rfl, rfl, rfl⟩
  simp [historyRender, h]

/-- Witness for the amended C2 at a concrete empty history page. -/
theorem empty_result_states_witness :
    historyRender (.returned (some ⟨0, []⟩)) = .infoMsg ("暂无历史记录".data) :=
  (empty_result_states ⟨0, []⟩ rfl []).2.1

/-- Per-session state, `src/streamlit_app.py:64-70`: the `initialized` flag
plus presence of the config snapshot and the four service handles stored in
`st.session_state`. -/
structure Session where
  initialized : Bool
  hasConfig : Bool
  hasAnalysisService : Bool
  hasHistoryService : Bool
  hasStockService : Bool
  hasSystemConfigService : Bool
  deriving DecidableEq

/-- The collaborator constructions performed during session initialization,
`src/streamlit_app.py:66-70`: `get_config()`, `AnalysisService()`,
`HistoryService()`, `StockService()`, `SystemConfigService()`. -/
inductive CtorCall
  | getConfig
  | analysisService
  | historyService
  | stockService
  | systemConfigService
  deriving DecidableEq

/-- The construction sequence of a first render, in source order. -/
def allCtorCalls : List CtorCall :=
  [.getConfig, .analysisService, .historyService, .stockService, .systemConfigService]

/-- Session initialization, `src/streamlit_app.py:64-70`: guarded by
`if "initialized" not in st.session_state`; returns the (possibly updated)
session together with the list of constructions performed. -/
def initializeSession (s : Session) : Session × List CtorCall :=
  if s.initialized then (s, [])
  else (⟨true, true, true, true, true, true⟩, allCtorCalls)

/-- Analysis view render cycle at the collaborator boundary,
`src/streamlit_app.py:137-199`: classifies the call outcome; the view never
assigns to `st.session_state`, so the session is returned unchanged. -/
def analysisViewStep (s : Session) (o : Outcome (Option AnalysisResult)) :
    RenderState × Session :=
  (analysisRender o, s)

/-- History view render cycle, `src/streamlit_app.py:220-266`; no session
mutation occurs in the view body. -/
def historyViewStep (s : Session) (o : Outcome (Option HistoryPage)) :
    RenderState × Session :=
  (historyRender o, s)

/-- Quote view render cycle, `src/streamlit_app.py:285-335`; no session
mutation occurs in the view body. -/
def quoteViewStep (s : Session) (o : Outcome (Option Quote)) :
    RenderState × Session :=
  (quoteRender o, s)

/-- Task-monitor view render cycle, `src/streamlit_app.py:346-384`; no session
mutation occurs in the view body. -/
def taskMonitorViewStep (s : Session) (o : Outcome (List Task)) :
    RenderState × Session :=
  (taskMonitorRender o, s)

/-- Config view render cycle, `src/streamlit_app.py:392-427`; no session
mutation occurs in the view body. -/
def configViewStep (s : Session) (o : Outcome (Option ConfigDict)) :
    RenderState × Session :=
  (configRender o, s)

/-- Claim C3: for every view and every raised collaborator exception, the view
ends in the error marker carrying the failure message after the view's fixed
prefix, and the session (initialization flag and service handles) is returned
unchanged — the exception is absorbed at the view boundary (each view step is
a total function, so no failure propagates out of it). -/
theorem view_error_boundary (s : Session) (msg : List Char) :
    analysisViewStep s (.raised msg) =
      (.errorMsg (("分析过程中发生错误: ".data) ++ msg), s) ∧
    historyViewStep s (.raised msg) =
      (.errorMsg (("查询失败: ".data) ++ msg), s) ∧
    quoteViewStep s (.raised msg) =
      (.errorMsg (("查询失败: ".data) ++ msg), s) ∧
    taskMonitorViewStep s (.raised msg) =
      (.errorMsg (("获取任务列表失败: ".data) ++ msg), s) ∧
    configViewStep s (.raised msg) =
      (.errorMsg (("加载配置失败: ".data) ++ msg), s) :=
  ⟨rfl, rfl, rfl, rfl, rfl⟩

/-- Claim C9: session initialization is idempotent — on an already-initialized
session it is a no-op performing zero constructions; on a fresh session it
performs the four service constructions plus the config snapshot exactly once
each and sets the flag; and re-running it on the result of any initialization
performs no further construction and changes nothing. -/
theorem initializeSession_idempotent (s : Session) :
    (s.initialized = true → initializeSession s = (s, [])) ∧
    (s.initialized = false →
      (initializeSession s).2 = allCtorCalls ∧
      (initializeSession s).1.initialized = true ∧
      (∀ c, (initializeSession s).2.count c = 1)) ∧
    initializeSession (initializeSession s).1 = ((initializeSession s).1, []) := by
  refine ⟨?_, ?_, ?_⟩
  · intro h
    simp [initializeSession, h]
  · intro h
    refine ⟨by simp [initializeSession, h], by simp [initializeSession, h], ?_⟩
    intro c
    cases c <;> simp [initializeSession, h, allCtorCalls, List.count_cons]
  · by_cases h : s.initialized <;> simp [initializeSession, h]

/-- A session before its first render: flag unset, nothing constructed. -/
def freshSession : Session := ⟨false, false, false, false, false, false⟩

/-- Witness for C9 at concrete sessions: a fresh session performs exactly the
five constructions, and re-initializing the result performs none. -/
theorem initializeSession_idempotent_witness :
    (initializeSession freshSession).2 = allCtorCalls ∧
    initializeSession (initializeSession freshSession).1 =
      ((initializeSession freshSession).1, []) :=
  ⟨((initializeSession_idempotent freshSession).2.1 rfl).1,
   (initializeSession_idempotent freshSession).2.2⟩

/-- What one quote field renders as: either the literal `"N/A"` text or a
formatted number.  A formatted number is never the `"N/A"` text. -/
inductive FieldDisp
  | na
  | num (v : Int)
  deriving DecidableEq

/-- Display of one optional field via `quote.get(key, 'N/A')`:
absent renders `"N/A"`, present renders the value. -/
def dispOpt (f : Option Int) : FieldDisp :=
  match f with
  | none => .na
  | some v => .num v

/-- The quote display rows, `src/streamlit_app.py:293-315`: eight fields are
read with `quote.get(key, 'N/A')`; `change` and `change_percent` are read at
`:298-299` with `quote.get(key, 0)` and then number-formatted (`:.2f`), so
they render a number even when absent.  The `change_percent` delta has no own
label in the source; it is listed here as `涨跌幅`. -/
def renderQuote (q : Quote) : List (List Char × FieldDisp) :=
  [(("当前价".data), dispOpt q.currentPrice),
   (("涨跌".data), .num (q.change.getD 0)),
   (("涨跌幅".data), .num (q.changePercent.getD 0)),
   (("今日开盘".data), dispOpt q.openPrice),
   (("昨日收盘".data), dispOpt q.prevClose),
   (("最高价".data), dispOpt q.high),
   (("最低价".data), dispOpt q.low),
   (("成交量".data), dispOpt q.volume),
   (("成交额".data), dispOpt q.amount),
   (("换手率".data), dispOpt q.turnoverRate)]

/-- A quote with every field absent. -/
def emptyQuote : Quote :=
  ⟨none, none, none, none, none, none, none, none, none, none⟩

/-- Counterexample to C7 as stated: on a quote with all fields absent, the
`change` and `changePercent` rows render the formatted number 0 — not
`"N/A"` — because the source reads them with default `0` instead of `'N/A'`. -/
theorem change_default_counterexample :
    (("涨跌".data), FieldDisp.num 0) ∈ renderQuote emptyQuote ∧
    (("涨跌幅".data), FieldDisp.num 0) ∈ renderQuote emptyQuote ∧
    FieldDisp.num 0 ≠ FieldDisp.na := by decide

/-- Claim C7 amended: all ten quote fields are optional and rendering is a
total function over all ten rows (absence never causes a failure); the eight
fields read with default `'N/A'` render `"N/A"` exactly when absent and the
raw value when present; but `change` and `changePercent` render the formatted
number `0` when absent — a formatted number, never the `"N/A"` text. -/
theorem renderQuote_spec (q : Quote) :
    (renderQuote q).map Prod.snd =
      [dispOpt q.currentPrice, .num (q.change.getD 0), .num (q.changePercent.getD 0),
       dispOpt q.openPrice, dispOpt q.prevClose, dispOpt q.high, dispOpt q.low,
       dispOpt q.volume, dispOpt q.amount, dispOpt q.turnoverRate] ∧
    (∀ f : Option Int, f = none → dispOpt f = .na) ∧
    (∀ (f : Option Int) (v : Int), f = some v → dispOpt f = .num v) ∧
    (∀ v : Int, FieldDisp.num v ≠ FieldDisp.na) ∧
    (renderQuote q).length = 10 := by
  refine ⟨rfl, ?_, ?_, ?_, rfl⟩
  · rintro f rfl
    rfl
  · rintro f v rfl
    rfl
  · intro v
    simp

/-- Witness for the amended C7: on the all-absent quote the rendered markers
are `"N/A"` everywhere except for the two zero-defaulted change rows. -/
theorem renderQuote_spec_witness :
    (renderQuote emptyQuote).map Prod.snd =
      [.na, .num 0, .num 0, .na, .na, .na, .na, .na, .na, .na] := by
  have h := renderQuote_spec emptyQuote
  rw [h.1]
  rfl

/-- One step of Python dict-key insertion order: append the key if unseen. -/
def fsStep {α : Type} [DecidableEq α] (acc : List α) (a : α) : List α :=
  if a ∈ acc then acc else acc ++ [a]

/-- The distinct elements of a list in first-seen order — the key order of a
Python dict built by insertion (the spec's "first-seen order of distinct
status values"). -/
def firstSeen {α : Type} [DecidableEq α] (l : List α) : List α :=
  l.foldl fsStep []

theorem mem_fsFoldl {α : Type} [DecidableEq α] (l : List α) (acc : List α) (a : α) :
    a ∈ l.foldl fsStep acc ↔ a ∈ acc ∨ a ∈ l := by
  induction l generalizing acc with
  | nil => simp
  | cons x l ih =>
      rw [List.foldl_cons, ih]
      unfold fsStep
      by_cases hx : x ∈ acc
      · rw [if_pos hx]
        simp only [List.mem_cons]
        constructor
        · rintro (h | h)
          exacts [Or.inl h, Or.inr (Or.inr h)]
        · rintro (h | h | h)
          exacts [Or.inl h, Or.inl (h ▸ hx), Or.inr h]
      · rw [if_neg hx]
        simp [List.mem_append, List.mem_cons, or_assoc]

theorem mem_firstSeen {α : Type} [DecidableEq α] (l : List α) (a : α) :
    a ∈ firstSeen l ↔ a ∈ l := by
  unfold firstSeen
  rw [mem_fsFoldl]
  simp

theorem firstSeen_concat {α : Type} [DecidableEq α] (l : List α) (a : α) :
    firstSeen (l ++ [a]) = if a ∈ l then firstSeen l else firstSeen l ++ [a] := by
  show List.foldl fsStep [] (l ++ [a]) = _
  rw [List.foldl_append]
  show fsStep (firstSeen l) a = _
  unfold fsStep
  by_cases h : a ∈ l
  · rw [if_pos ((mem_firstSeen l a).mpr h), if_pos h]
  · rw [if_neg (fun hc => h ((mem_firstSeen l a).mp hc)), if_neg h]

/-- The status a task is grouped under, `src/streamlit_app.py:356`:
`task.get("status", "unknown")`. -/
def taskStatus (t : Task) : List Char := t.status.getD ("unknown".data)

/-- One iteration of the grouping loop, `src/streamlit_app.py:355-359`: if the
status key exists, append the task to its list; otherwise add a new key at the
end (Python dicts preserve insertion order). -/
def addTaskToGroups (groups : List (List Char × List Task)) (t : Task) :
    List (List Char × List Task) :=
  if groups.any (fun g => decide (g.1 = taskStatus t)) then
    groups.map (fun g => if g.1 = taskStatus t then (g.1, g.2 ++ [t]) else g)
  else groups ++ [(taskStatus t, [t])]

/-- Task grouping, `src/streamlit_app.py:354-359`: the `status_groups` dict
after the loop, as an ordered association list. -/
def groupTasksByStatus (tasks : List Task) : List (List Char × List Task) :=
  tasks.foldl addTaskToGroups []

/-- The spec's description of `formatTaskGroup` (§4.2): one group per distinct
status value in first-seen order, each group holding the input's tasks of that
status in input order.  Stated from the spec's words, to be compared with the
code-derived `groupTasksByStatus`. -/
def formatTaskGroupSpec (tasks : List Task) : List (List Char × List Task) :=
  (firstSeen (tasks.map taskStatus)).map
    (fun s => (s, tasks.filter (fun u => decide (taskStatus u = s))))

theorem formatTaskGroupSpec_concat (tasks : List Task) (t : Task) :
    formatTaskGroupSpec (tasks ++ [t]) = addTaskToGroups (formatTaskGroupSpec tasks) t := by
  unfold formatTaskGroupSpec addTaskToGroups
  have hmap : (tasks ++ [t]).map taskStatus = tasks.map taskStatus ++ [taskStatus t] := by
    simp
  rw [hmap, firstSeen_concat]
  have hcond :
      ((firstSeen (tasks.map taskStatus)).map
          (fun s => (s, tasks.filter (fun u => decide (taskStatus u = s))))).any
        (fun g => decide (g.1 = taskStatus t)) = true ↔
      taskStatus t ∈ tasks.map taskStatus := by
    rw [List.any_eq_true]
    constructor
    · rintro ⟨g, hg, hgs⟩
      rw [List.mem_map] at hg
      obtain ⟨k, hk, rfl⟩ := hg
      have hks : k = taskStatus t := of_decide_eq_true hgs
      exact hks ▸ (mem_firstSeen _ _).mp hk
    · intro hs
      refine ⟨(taskStatus t, tasks.filter (fun u => decide (taskStatus u = taskStatus t))),
        ?_, by simp⟩
      exact List.mem_map_of_mem _ ((mem_firstSeen _ _).mpr hs)
  by_cases h : taskStatus t ∈ tasks.map taskStatus
  · rw [if_pos h, if_pos (hcond.mpr h), List.map_map]
    apply List.map_congr_left
    intro k hk
    simp only [Function.comp]
    by_cases hks : k = taskStatus t
    · subst hks
      rw [if_pos rfl, List.filter_append]
      simp
    · rw [if_neg hks, List.filter_append]
      have hts : ¬taskStatus t = k := fun hc => hks hc.symm
      simp [hts]
  · rw [if_neg h, if_neg (fun hc => h (hcond.mp hc)), List.map_append]
    have hone :
        List.map (fun s => (s, List.filter (fun u => decide (taskStatus u = s)) (tasks ++ [t])))
          [taskStatus t] = [(taskStatus t, [t])] := by
      have hnil : List.filter (fun u => decide (taskStatus u = taskStatus t)) tasks = [] := by
        rw [List.filter_eq_nil_iff]
        intro u hu
        simp only [decide_eq_true_eq]
        intro hc
        exact h (hc ▸ List.mem_map_of_mem taskStatus hu)
      simp [List.filter_append, hnil]
    rw [hone]
    congr 1
    apply List.map_congr_left
    intro k hk
    have hkM : k ∈ tasks.map taskStatus := (mem_firstSeen _ _).mp hk
    have hts : ¬taskStatus t = k := fun hc => h (hc ▸ hkM)
    rw [List.filter_append]
    simp [hts]

theorem groupTasks_eq_spec (tasks : List Task) :
    groupTasksByStatus tasks = formatTaskGroupSpec tasks := by
  induction tasks using List.reverseRecOn with
  | nil => rfl
  | append_singleton l t ih =>
      unfold groupTasksByStatus
      rw [List.foldl_append, List.foldl_cons, List.foldl_nil]
      unfold groupTasksByStatus at ih
      rw [ih, formatTaskGroupSpec_concat]

/-- The spec's example task list with statuses
running, completed, running, failed. -/
def sampleTasks : List Task :=
  [⟨some ("600519".data), none, some ("running".data)⟩,
   ⟨some ("00700".data), none, some ("completed".data)⟩,
   ⟨some ("AAPL".data), none, some ("running".data)⟩,
   ⟨some ("600036".data), none, some ("failed".data)⟩]

/-- Claim C6: grouping equals the spec's description — the distinct status
values in first-seen input order, each group holding its tasks in input
(relative) order; on the example statuses `[running, completed, running,
failed]` the group order is `[running, completed, failed]` with the `running`
group holding its two tasks in the original relative order. -/
theorem groupTasksByStatus_claim (tasks : List Task) :
    groupTasksByStatus tasks = formatTaskGroupSpec tasks ∧
    groupTasksByStatus sampleTasks =
      [(("running".data),
        [⟨some ("600519".data), none, some ("running".data)⟩,
         ⟨some ("AAPL".data), none, some ("running".data)⟩]),
       (("completed".data), [⟨some ("00700".data), none, some ("completed".data)⟩]),
       (("failed".data), [⟨some ("600036".data), none, some ("failed".data)⟩])] :=
  ⟨groupTasks_eq_spec tasks, by decide⟩

/-- The fixed static section table of the Config view,
`src/streamlit_app.py:402-407`: section name → listed configuration keys. -/
def configSections : List (List Char × List (List Char)) :=
  [(("AI 配置".data),
      [("gemini_api_key".data), ("openai_api_key".data),
       ("openai_base_url".data), ("openai_model".data)]),
   (("通知配置".data),
      [("wechat_webhook_url".data), ("feishu_webhook_url".data),
       ("telegram_bot_token".data)]),
   (("数据源配置".data),
      [("tushare_token".data), ("tavily_api_keys".data), ("serpapi_keys".data)]),
   (("股票配置".data), [("stock_list".data)])]

/-- Every key listed anywhere in the static section table. -/
def sectionKeys : List (List Char) := configSections.flatMap Prod.snd

/-- Dict lookup: `key in config_dict` / `config_dict[key]`; the stored value
may itself be null. -/
def findKey (cfg : ConfigDict) (k : List Char) : Option (Option (List Char)) :=
  match cfg with
  | [] => none
  | (k', v) :: rest => if k' = k then some v else findKey rest k

/-- The entries the Config view renders, `src/streamlit_app.py:409-419`: it
walks the static section table and renders a key (with `displayValue` masking)
only when `key in config_dict`; keys of the mapping outside the table are
never visited. -/
def renderConfigEntries (cfg : ConfigDict) : List (List Char × Option (List Char)) :=
  configSections.flatMap (fun sec =>
    sec.2.filterMap (fun k =>
      match findKey cfg k with
      | some v => some (k, displayValue k v)
      | none => none))

/-- Claim C10: a key appears among the rendered config entries exactly when it
is listed in the fixed static section table and present in the returned config
mapping; in particular any key of the config snapshot not in the table is
never rendered, masked or otherwise. -/
theorem configPage_renders_only_listed_keys (cfg : ConfigDict) (k : List Char) :
    (∃ v, (k, v) ∈ renderConfigEntries cfg) ↔
      (k ∈ sectionKeys ∧ (findKey cfg k).isSome = true) := by
  unfold renderConfigEntries sectionKeys
  constructor
  · rintro ⟨v, hv⟩
    rw [List.mem_flatMap] at hv
    obtain ⟨sec, hsec, hmem⟩ := hv
    rw [List.mem_filterMap] at hmem
    obtain ⟨k', hk', heq⟩ := hmem
    cases hf : findKey cfg k' with
    | none =>
        rw [hf] at heq
        cases heq
    | some v' =>
        rw [hf] at heq
        have hkk : k' = k := congrArg Prod.fst (Option.some.inj heq)
        subst hkk
        exact ⟨List.mem_flatMap.mpr ⟨sec, hsec, hk'⟩, by rw [hf]; rfl⟩
  · rintro ⟨hk, hsome⟩
    obtain ⟨v', hf⟩ := Option.isSome_iff_exists.mp hsome
    rw [List.mem_flatMap] at hk
    obtain ⟨sec, hsec, hkin⟩ := hk
    refine ⟨displayValue k v', ?_⟩
    rw [List.mem_flatMap]
    refine ⟨sec, hsec, ?_⟩
    rw [List.mem_filterMap]
    exact ⟨k, hkin, by rw [hf]⟩

end StreamlitApp
